import Mathlib

/-!
Verification development for the httpit wrappers around the webfsd HTTP
server.  The C sources `webfsd_module.c` (embedded-thread wrapper) and
`webfsd_python.c` (subprocess wrapper) are embedded shallowly as explicit
state machines: every fallible system call is an input drawn from an
environment record, and the sequencing of the startup pipeline is recorded
as an explicit event trace.  The request-processing core of webfsd
(path resolution, directory-listing cache, directory dispatch) is not part
of the wrapper sources; those pieces are modelled from the specification
and the manual page, as marked on each definition.
-/

/-- Outcome of a wrapper entry point: success, or a Python exception
carrying a message (`PyErr_SetString` / `PyErr_Format` followed by a NULL
return). -/
inductive CallResult where
  | ok : CallResult
  | error : String → CallResult
  deriving DecidableEq, Repr

namespace WebfsdModule

/-- Startup pipeline events of `init_server` / `webfsd_start` in
`webfsd_module.c`: a successful `bind(2)`, a successful `listen(2)`, the
`init_mime` table load, and the creation of the `mainloop` accept-loop
thread. -/
inductive StartupEvent where
  | bindEv : StartupEvent
  | listenEv : StartupEvent
  | mimeLoadEv : StartupEvent
  | acceptLoopEv : StartupEvent
  deriving DecidableEq, Repr

/-- Environment of system-call outcomes consumed by `init_server` and
`webfsd_start`: whether `getaddrinfo`, socket creation (IPv6 or the IPv4
fallback), `bind`, `listen` and `pthread_create` succeed, and the `errno`
observed when `bind` fails. -/
structure SysEnv where
  getaddrinfoOk : Bool
  socketOk : Bool
  bindOk : Bool
  bindErrno : Nat
  listenOk : Bool
  pthreadCreateOk : Bool
  deriving DecidableEq, Repr

/-- The mutable globals of `webfsd_module.c` that the wrapper touches:
`server_running`, the listening socket `slisten` (tracked as an open/closed
flag), the server thread, and the configuration globals of webfsd that
`webfsd_start` / `init_server` assign. -/
structure ModuleState where
  serverRunning : Bool
  socketOpen : Bool
  threadActive : Bool
  docRoot : String
  listenPort : Int
  dontdetach : Bool
  debug : Bool
  serverHost : String
  indexhtml : Option String
  logfile : Option String
  noListing : Bool
  maxConn : Int
  timeout : Int
  deriving DecidableEq, Repr

/-- Result of `init_server`: the C return value (0 mapped to `ok`, -1 with
a pending Python error mapped to `error`), the updated globals, and the
trace of completed startup steps. -/
structure InitOutcome where
  result : CallResult
  state : ModuleState
  events : List StartupEvent
  deriving DecidableEq, Repr

/-- The error message chosen by `init_server` when `bind(2)` fails,
following the `errno` dispatch in `webfsd_module.c` (EADDRINUSE = 98,
EACCES = 13, EPERM = 1 on Linux). -/
def bindErrorMsg (errno : Nat) : String :=
  if errno = 98 then "Port is already in use"
  else if errno = 13 || errno = 1 then "Permission denied to bind to port"
  else "bind failed"

/-- Shallow embedding of `init_server` from `webfsd_module.c`: set the
configuration defaults, resolve the address, create the socket (IPv6 with
IPv4 fallback), bind, listen, then load the MIME table (`init_mime`) and
the quoting table.  Every failing step closes the socket (when it was
created), leaves a Python error pending and returns -1. -/
def init_server (port : Int) (rootDir : String) (env : SysEnv)
    (s : ModuleState) : InitOutcome :=
  let s1 : ModuleState :=
    { s with docRoot := rootDir, listenPort := port, dontdetach := true,
             debug := false, timeout := 60, maxConn := 32 }
  if !env.getaddrinfoOk then
    ⟨CallResult.error "getaddrinfo failed", s1, []⟩
  else if !env.socketOk then
    ⟨CallResult.error "Failed to create socket", s1, []⟩
  else if !env.bindOk then
    ⟨CallResult.error (bindErrorMsg env.bindErrno),
      { s1 with socketOpen := false }, []⟩
  else if !env.listenOk then
    ⟨CallResult.error "listen failed", { s1 with socketOpen := false },
      [StartupEvent.bindEv]⟩
  else
    ⟨CallResult.ok, { s1 with socketOpen := true },
      [StartupEvent.bindEv, StartupEvent.listenEv, StartupEvent.mimeLoadEv]⟩

/-- The keyword arguments accepted by `start_server` in
`webfsd_module.c`. -/
structure StartArgs where
  port : Int
  rootDir : String
  host : Option String
  indexFile : Option String
  logFile : Option String
  enableListing : Bool
  maxConnections : Int
  networkTimeout : Int
  deriving DecidableEq, Repr

/-- The settings-application block of `webfsd_start` (executed after the
`server_running` check and before `init_server`). -/
def applySettings (a : StartArgs) (s : ModuleState) : ModuleState :=
  { s with
    serverHost := a.host.getD s.serverHost,
    indexhtml := match a.indexFile with
      | some f => some f
      | none => s.indexhtml,
    logfile := match a.logFile with
      | some f => some f
      | none => s.logfile,
    noListing := !a.enableListing,
    maxConn := a.maxConnections,
    timeout := a.networkTimeout }

/-- Result of the `start_server` entry point. -/
structure StartOutcome where
  result : CallResult
  state : ModuleState
  events : List StartupEvent
  deriving DecidableEq, Repr

/-- Shallow embedding of `webfsd_start` from `webfsd_module.c`: refuse when
already running, apply the keyword settings, run `init_server`, then spawn
the `mainloop` thread and mark the server running.  Thread-creation
failure closes the socket and reports an error. -/
def webfsd_start (a : StartArgs) (env : SysEnv) (s : ModuleState) :
    StartOutcome :=
  if s.serverRunning then
    ⟨CallResult.error "Server is already running", s, []⟩
  else
    let io := init_server a.port a.rootDir env (applySettings a s)
    match io.result with
    | CallResult.error m => ⟨CallResult.error m, io.state, io.events⟩
    | CallResult.ok =>
      if !env.pthreadCreateOk then
        ⟨CallResult.error "Failed to create server thread",
          { io.state with socketOpen := false }, io.events⟩
      else
        ⟨CallResult.ok,
          { io.state with threadActive := true, serverRunning := true },
          io.events ++ [StartupEvent.acceptLoopEv]⟩

/-- Shutdown events of `stop_server`: closing the listening socket and
joining the server thread. -/
inductive StopEvent where
  | closeSocketEv : StopEvent
  | joinThreadEv : StopEvent
  deriving DecidableEq, Repr

/-- Result of the `stop_server` entry point. -/
structure StopOutcome where
  result : CallResult
  state : ModuleState
  events : List StopEvent
  deriving DecidableEq, Repr

/-- Shallow embedding of `webfsd_stop` from `webfsd_module.c`: refuse when
not running; otherwise close the listening socket (when still open) to
signal the accept loop, `pthread_join` the server thread, and clear
`server_running`. -/
def stop_server (s : ModuleState) : StopOutcome :=
  if !s.serverRunning then
    ⟨CallResult.error "Server is not running", s, []⟩
  else
    ⟨CallResult.ok,
      { s with socketOpen := false, threadActive := false,
               serverRunning := false },
      (if s.socketOpen then [StopEvent.closeSocketEv] else [])
        ++ [StopEvent.joinThreadEv]⟩

/-- Shallow embedding of `webfsd_is_running` from `webfsd_module.c`. -/
def is_running (s : ModuleState) : Bool := s.serverRunning

/-- The complete method table `webfsd_methods` of the embedded module: the
only control operations the module exposes. -/
def webfsd_methods : List String :=
  ["start_server", "stop_server", "is_running"]

/-- Concrete startup arguments used by the witnesses. -/
def argsA : StartArgs :=
  ⟨8000, "/srv/www", none, some "index.html", none, true, 32, 60⟩

/-- Environment in which every system call succeeds. -/
def envOk : SysEnv := ⟨true, true, true, 0, true, true⟩

/-- Environment in which `bind(2)` fails with EADDRINUSE. -/
def envBindFail : SysEnv := ⟨true, true, false, 98, true, true⟩

/-- The idle module state before any server has been started. -/
def stateIdle : ModuleState :=
  ⟨false, false, false, ".", 8000, true, false, "", none, none, false,
    32, 60⟩

end WebfsdModule

namespace WebfsdSub

/-- The mutable globals of the subprocess wrapper `webfsd_python.c`:
`server_running` and `server_pid` (0 = none, -1 = daemon-mode sentinel,
positive = child process id). -/
structure WrapState where
  serverRunning : Bool
  serverPid : Int
  deriving DecidableEq, Repr

/-- Environment of system-call outcomes consumed by the subprocess
wrapper: whether the pre-flight test bind sees EADDRINUSE, the value
`fork(2)` returns in the parent (negative on failure, the child pid
otherwise), which pids `kill(pid, 0)` reports alive, whether
`kill(pid, SIGTERM)` succeeds in `stop_server`, whether the daemon-path
`waitpid` returns the forked pid, and the exit code of the initial
process in daemon mode (`none` when it was killed by a signal). -/
structure WrapEnv where
  portInUse : Bool
  forkResult : Int
  alive : Int → Bool
  killTermOk : Bool
  waitpidMatches : Bool
  initExitCode : Option Nat

/-- Shallow embedding of `webfsd_start` from `webfsd_python.c`, seen from
the parent process (the child branch execs webfsd and never returns to
Python): refuse when already running; refuse when the test bind shows the
port in use; fork; in daemon mode (`foreground = false`) wait for the
initial process and either record the -1 sentinel pid or roll the state
back; in foreground mode verify the child is alive and roll back if it
already died. -/
def start (foreground : Bool) (env : WrapEnv) (s : WrapState) :
    CallResult × WrapState :=
  if s.serverRunning then
    (CallResult.error "Server is already running", s)
  else if env.portInUse then
    (CallResult.error "Port is already in use", s)
  else if env.forkResult < 0 then
    (CallResult.error "fork failed", { s with serverPid := env.forkResult })
  else
    let pid := env.forkResult
    if foreground then
      if env.alive pid then (CallResult.ok, ⟨true, pid⟩)
      else (CallResult.error "Server failed to start", ⟨false, 0⟩)
    else
      if env.waitpidMatches then
        if env.initExitCode = some 0 then (CallResult.ok, ⟨true, -1⟩)
        else (CallResult.error "Server failed to start", ⟨false, 0⟩)
      else (CallResult.error "Failed to wait for server process", ⟨false, 0⟩)

/-- Shallow embedding of `webfsd_stop` from `webfsd_python.c`: refuse when
not running; refuse (leaving the state untouched) when the recorded pid is
the daemon sentinel -1 or non-positive; otherwise SIGTERM the child, wait
for it, and clear both globals. -/
def stop (env : WrapEnv) (s : WrapState) : CallResult × WrapState :=
  if !s.serverRunning then
    (CallResult.error "Server is not running", s)
  else if s.serverPid = -1 then
    (CallResult.error "Cannot stop daemon mode server from Python", s)
  else if s.serverPid ≤ 0 then
    (CallResult.error "Server is not running", s)
  else if !env.killTermOk then
    (CallResult.error "kill failed", s)
  else
    (CallResult.ok, ⟨false, 0⟩)

/-- Shallow embedding of `webfsd_is_running` from `webfsd_python.c`:
daemon mode is assumed alive; a foreground child is probed with
`kill(pid, 0)`, and a dead child clears both globals before the call
returns false. -/
def is_running (env : WrapEnv) (s : WrapState) : Bool × WrapState :=
  if s.serverRunning then
    if s.serverPid = -1 then (true, s)
    else if 0 < s.serverPid then
      if env.alive s.serverPid then (true, s) else (false, ⟨false, 0⟩)
    else (false, s)
  else (false, s)

/-- The invariant of the subprocess wrapper: whenever `server_running` is
set, `server_pid` is nonzero (a live child pid or the -1 daemon
sentinel). -/
abbrev Inv (s : WrapState) : Prop := s.serverRunning = true → s.serverPid ≠ 0

/-- Environment used by the witnesses: port free, fork yields pid 1234,
every pid probes alive, SIGTERM succeeds, daemon `waitpid` matches and the
initial process exits 0. -/
def envW : WrapEnv := ⟨false, 1234, fun _ => true, true, true, some 0⟩

/-- Environment in which the child process 1234 is already dead. -/
def envDead : WrapEnv := ⟨false, 1234, fun _ => false, true, true, some 0⟩

/-- The idle wrapper state. -/
def wIdle : WrapState := ⟨false, 0⟩

end WebfsdSub

namespace ReqPath

/-- Modelled from the spec: the virtual-host configuration of the Request
Processor (the request-processing core of webfsd is not among the wrapper
sources).  When virtual hosting is enabled, the lowercased `Host` header
selects a subdirectory under the document root. -/
structure VHostConfig where
  enabled : Bool
  hostDir : String
  deriving DecidableEq, Repr

/-- Modelled from the spec: outcome of resolving a decoded request path —
either a 4xx-class rejection or a resolved filesystem path (a list of
segments under the document root). -/
inductive Resolution where
  | rejected : Nat → Resolution
  | resolved : List String → Resolution
  deriving DecidableEq, Repr

/-- One step of the depth count used to detect directory traversal: `..`
pops a level and escapes the root when the depth is already 0 (`none`),
`.` and empty segments are neutral, any other segment descends. -/
def stepDepth : Option Nat → String → Option Nat
  | none, _ => none
  | some d, seg =>
    if seg = ".." then
      match d with
      | 0 => none
      | Nat.succ k => some k
    else if seg = "." || seg = "" then some d
    else some (d + 1)

/-- Modelled from the spec: a decoded request path (as a list of segments)
contains `..` segments that would escape the document root exactly when
the running depth ever drops below the root. -/
def escapesRoot (segs : List String) : Bool :=
  (segs.foldl stepDepth (some 0)).isNone

/-- One step of path normalisation: `..` discards the last kept segment,
`.` and empty segments are dropped, other segments are kept. -/
def normStep (st : List String) (seg : String) : List String :=
  if seg = ".." then st.dropLast
  else if seg = "." || seg = "" then st
  else st ++ [seg]

/-- Normalised form of a decoded request path relative to its root. -/
def normalize (segs : List String) : List String :=
  segs.foldl normStep []

/-- Modelled from the spec: the Request Processor resolves the filesystem
path as the concatenation of the (possibly virtual-host-scoped) document
root and the decoded request path, rejecting directory traversal that
escapes the root with a 403-class error regardless of virtual hosting. -/
def resolve_path (vh : VHostConfig) (root : List String)
    (segs : List String) : Resolution :=
  if escapesRoot segs then Resolution.rejected 403
  else
    Resolution.resolved
      (root ++ (if vh.enabled then [vh.hostDir] else []) ++ normalize segs)

/-- Concrete virtual-host configuration used by the witnesses. -/
def vhW : VHostConfig := ⟨true, "ftp.foobar.org"⟩

end ReqPath

namespace DirCache

/-- One directory entry as seen by the listing renderer: name, size, and
the file's own modification time. -/
structure FileEntry where
  name : String
  size : Nat
  fmtime : Nat
  deriving DecidableEq, Repr

/-- The state of one directory on the filesystem: its entries and the
directory's own mtime. -/
structure DirState where
  entries : List FileEntry
  mtime : Nat
  deriving DecidableEq, Repr

/-- A cached directory listing (`CachedDirectory` of the spec): the
rendered body, the directory mtime at render time, the insertion
timestamp and the last-access timestamp. -/
structure CacheEntry where
  body : List String
  storedMtime : Nat
  insertedAt : Nat
  lastAccess : Nat
  deriving DecidableEq, Repr

/-- Insert a file entry into a name-sorted list. -/
def insertByName (f : FileEntry) : List FileEntry → List FileEntry
  | [] => [f]
  | g :: gs =>
    if f.name ≤ g.name then f :: g :: gs else g :: insertByName f gs

/-- Sort directory entries by filename (the spec's stable listing
order). -/
def sortByName (l : List FileEntry) : List FileEntry :=
  l.foldr insertByName []

/-- Modelled from the spec: render a directory listing, one line per
entry in stable filename order showing name, size and timestamp (the
listing renderer of webfsd is not among the wrapper sources). -/
def render (d : DirState) : List String :=
  (sortByName d.entries).map
    (fun e => e.name ++ " " ++ toString e.size ++ " " ++ toString e.fmtime)

/-- Modelled from the spec: a cache entry is valid for serving only if
`now - insertion_timestamp < TTL` and the stored mtime equals the
directory's current mtime. -/
def cacheValid (ttl now : Nat) (e : CacheEntry) (curMtime : Nat) : Bool :=
  decide (now - e.insertedAt < ttl) && decide (e.storedMtime = curMtime)

/-- Modelled from the spec: `lookup_or_render` of the Directory Cache — on
a valid hit, update last-access and return the stored body; on a miss or
staleness, re-read the directory, render the listing, and replace the
cache entry with a fresh one before serving. -/
def lookup_or_render (ttl now : Nat) (cache : Option CacheEntry)
    (d : DirState) : List String × CacheEntry :=
  match cache with
  | some e =>
    if cacheValid ttl now e d.mtime then (e.body, { e with lastAccess := now })
    else (render d, ⟨render d, d.mtime, now, now⟩)
  | none => (render d, ⟨render d, d.mtime, now, now⟩)

/-- Modelled from the spec and the manual page's `-a` description:
creating a directory entry updates the directory's own mtime. -/
def createEntry (d : DirState) (f : FileEntry) (tNew : Nat) : DirState :=
  ⟨d.entries ++ [f], tNew⟩

/-- Modelled from the spec and the manual page's `-a` description:
deleting a directory entry updates the directory's own mtime. -/
def deleteEntry (d : DirState) (nm : String) (tNew : Nat) : DirState :=
  ⟨d.entries.filter (fun e => e.name ≠ nm), tNew⟩

/-- Modelled from the spec and the manual page's `-a` description:
modifying the contents of an existing file changes that file's size and
timestamp but not the directory's own mtime. -/
def modifyFile (d : DirState) (nm : String) (newSize newMtime : Nat) :
    DirState :=
  ⟨d.entries.map
      (fun e => if e.name = nm then ⟨e.name, newSize, newMtime⟩ else e),
    d.mtime⟩

/-- Modelled from the spec: the directory-dispatch configuration — the
configured index filename and whether listings are enabled (the `-f` and
`-j` options of the manual page). -/
structure ListingConfig where
  indexFile : String
  listingEnabled : Bool
  deriving DecidableEq, Repr

/-- Modelled from the spec: response for a request resolving to a
directory — the index file, a rendered listing, or an error. -/
inductive DirResponse where
  | indexResp : String → DirResponse
  | listingResp : List String → DirResponse
  | errorResp : Nat → DirResponse
  deriving DecidableEq, Repr

/-- Whether the configured index file exists in the directory. -/
def hasIndex (cfg : ListingConfig) (d : DirState) : Bool :=
  d.entries.any (fun e => e.name == cfg.indexFile)

/-- Modelled from the spec: dispatch for a request that resolves to a
directory — the configured index filename is tried first; if absent, a
directory listing is served through the Directory Cache unless listing is
disabled, in which case the absence of an index file is itself a 404-class
error response. -/
def serve_directory (cfg : ListingConfig) (ttl now : Nat)
    (cache : Option CacheEntry) (d : DirState) : DirResponse :=
  if hasIndex cfg d then DirResponse.indexResp cfg.indexFile
  else if cfg.listingEnabled then
    DirResponse.listingResp (lookup_or_render ttl now cache d).1
  else DirResponse.errorResp 404

/-- Concrete directory used by the witnesses. -/
def dirW : DirState :=
  ⟨[⟨"b.txt", 10, 50⟩, ⟨"index.html", 3, 40⟩], 100⟩

/-- Concrete directory without an index file, used by the witnesses. -/
def dirNoIdx : DirState := ⟨[⟨"b.txt", 10, 50⟩], 100⟩

/-- Concrete cache entry used by the witnesses: rendered from `dirW` at
time 100 and inserted at time 100. -/
def entryW : CacheEntry := ⟨render dirW, 100, 100, 100⟩

/-- Concrete file entry used by the witnesses. -/
def fW : FileEntry := ⟨"new.txt", 1, 101⟩

/-- Dispatch configuration with listings enabled, used by the
witnesses. -/
def cfgIdx : ListingConfig := ⟨"index.html", true⟩

/-- Dispatch configuration with listings disabled, used by the
witnesses. -/
def cfgNoList : ListingConfig := ⟨"index.html", false⟩

end DirCache

/-- Claim C1: at startup of the embedded server, the listening socket is
resolved, bound and put into the listening state before the MIME table is
loaded, and the accept loop is entered only after both steps have
succeeded: every successful `start_server` records the pipeline
bind → listen → MIME load → accept loop, in that order. -/
theorem c1_startup_order (a : WebfsdModule.StartArgs)
    (env : WebfsdModule.SysEnv) (s : WebfsdModule.ModuleState)
    (h : (WebfsdModule.webfsd_start a env s).result = CallResult.ok) :
    (WebfsdModule.webfsd_start a env s).events =
      [WebfsdModule.StartupEvent.bindEv, WebfsdModule.StartupEvent.listenEv,
       WebfsdModule.StartupEvent.mimeLoadEv,
       WebfsdModule.StartupEvent.acceptLoopEv] := by
  obtain ⟨g, so, b, be, l, p⟩ := env
  cases g <;> cases so <;> cases b <;> cases l <;> cases p <;>
    cases hr : s.serverRunning <;>
      simp_all [WebfsdModule.webfsd_start, WebfsdModule.init_server]

/-- Witness for `c1_startup_order` at a concrete successful startup. -/
theorem c1_startup_order_holds :
    (WebfsdModule.webfsd_start WebfsdModule.argsA WebfsdModule.envOk
        WebfsdModule.stateIdle).events =
      [WebfsdModule.StartupEvent.bindEv, WebfsdModule.StartupEvent.listenEv,
       WebfsdModule.StartupEvent.mimeLoadEv,
       WebfsdModule.StartupEvent.acceptLoopEv] :=
  c1_startup_order WebfsdModule.argsA WebfsdModule.envOk
    WebfsdModule.stateIdle (by rfl)

/-- Claim C2: when `bind(2)` fails during startup of the embedded server,
`start_server` reports the errno-specific error, the socket is closed, no
server thread is created, the server is not marked as running, and the
accept loop is never entered. -/
theorem c2_bind_failure_atomic (a : WebfsdModule.StartArgs)
    (env : WebfsdModule.SysEnv) (s : WebfsdModule.ModuleState)
    (hrun : s.serverRunning = false) (hth : s.threadActive = false)
    (hg : env.getaddrinfoOk = true) (hso : env.socketOk = true)
    (hb : env.bindOk = false) :
    (WebfsdModule.webfsd_start a env s).result =
      CallResult.error (WebfsdModule.bindErrorMsg env.bindErrno) ∧
    (WebfsdModule.webfsd_start a env s).state.socketOpen = false ∧
    (WebfsdModule.webfsd_start a env s).state.threadActive = false ∧
    (WebfsdModule.webfsd_start a env s).state.serverRunning = false ∧
    WebfsdModule.StartupEvent.acceptLoopEv ∉
      (WebfsdModule.webfsd_start a env s).events := by
  simp [WebfsdModule.webfsd_start, WebfsdModule.init_server,
    WebfsdModule.applySettings, hrun, hth, hg, hso, hb]

/-- Witness for `c2_bind_failure_atomic` at a concrete EADDRINUSE bind
failure. -/
theorem c2_bind_failure_atomic_holds :
    (WebfsdModule.webfsd_start WebfsdModule.argsA WebfsdModule.envBindFail
        WebfsdModule.stateIdle).result =
      CallResult.error
        (WebfsdModule.bindErrorMsg WebfsdModule.envBindFail.bindErrno) ∧
    (WebfsdModule.webfsd_start WebfsdModule.argsA WebfsdModule.envBindFail
        WebfsdModule.stateIdle).state.socketOpen = false ∧
    (WebfsdModule.webfsd_start WebfsdModule.argsA WebfsdModule.envBindFail
        WebfsdModule.stateIdle).state.threadActive = false ∧
    (WebfsdModule.webfsd_start WebfsdModule.argsA WebfsdModule.envBindFail
        WebfsdModule.stateIdle).state.serverRunning = false ∧
    WebfsdModule.StartupEvent.acceptLoopEv ∉
      (WebfsdModule.webfsd_start WebfsdModule.argsA WebfsdModule.envBindFail
          WebfsdModule.stateIdle).events :=
  c2_bind_failure_atomic WebfsdModule.argsA WebfsdModule.envBindFail
    WebfsdModule.stateIdle rfl rfl rfl rfl rfl

/-- Claim C6: for a running embedded server, `stop_server` succeeds, its
shutdown trace closes the listening socket and then joins the server
thread before returning, afterwards `is_running` returns false, and the
module's method table exposes exactly the start, liveness-query and stop
operations. -/
theorem c6_stop_graceful (s : WebfsdModule.ModuleState)
    (h : WebfsdModule.is_running s = true) (hsock : s.socketOpen = true) :
    (WebfsdModule.stop_server s).result = CallResult.ok ∧
    (WebfsdModule.stop_server s).events =
      [WebfsdModule.StopEvent.closeSocketEv,
       WebfsdModule.StopEvent.joinThreadEv] ∧
    (WebfsdModule.stop_server s).state.socketOpen = false ∧
    (WebfsdModule.stop_server s).state.threadActive = false ∧
    WebfsdModule.is_running (WebfsdModule.stop_server s).state = false ∧
    WebfsdModule.webfsd_methods =
      ["start_server", "stop_server", "is_running"] := by
  simp_all [WebfsdModule.stop_server, WebfsdModule.is_running,
    WebfsdModule.webfsd_methods]

/-- Witness for `c6_stop_graceful` at a concrete running state. -/
theorem c6_stop_graceful_holds :
    (WebfsdModule.stop_server
        (WebfsdModule.webfsd_start WebfsdModule.argsA WebfsdModule.envOk
            WebfsdModule.stateIdle).state).result = CallResult.ok ∧
    (WebfsdModule.stop_server
        (WebfsdModule.webfsd_start WebfsdModule.argsA WebfsdModule.envOk
            WebfsdModule.stateIdle).state).events =
      [WebfsdModule.StopEvent.closeSocketEv,
       WebfsdModule.StopEvent.joinThreadEv] ∧
    (WebfsdModule.stop_server
        (WebfsdModule.webfsd_start WebfsdModule.argsA WebfsdModule.envOk
            WebfsdModule.stateIdle).state).state.socketOpen = false ∧
    (WebfsdModule.stop_server
        (WebfsdModule.webfsd_start WebfsdModule.argsA WebfsdModule.envOk
            WebfsdModule.stateIdle).state).state.threadActive = false ∧
    WebfsdModule.is_running
      (WebfsdModule.stop_server
          (WebfsdModule.webfsd_start WebfsdModule.argsA WebfsdModule.envOk
              WebfsdModule.stateIdle).state).state = false ∧
    WebfsdModule.webfsd_methods =
      ["start_server", "stop_server", "is_running"] :=
  c6_stop_graceful
    (WebfsdModule.webfsd_start WebfsdModule.argsA WebfsdModule.envOk
        WebfsdModule.stateIdle).state rfl rfl

/-- Claim C8: calling `start_server` on the embedded module while a server
is already running fails with the `Server is already running` error and
changes nothing: the outcome carries the untouched state and an empty
startup trace. -/
theorem c8_start_while_running (a : WebfsdModule.StartArgs)
    (env : WebfsdModule.SysEnv) (s : WebfsdModule.ModuleState)
    (h : s.serverRunning = true) :
    WebfsdModule.webfsd_start a env s =
      ⟨CallResult.error "Server is already running", s, []⟩ := by
  simp [WebfsdModule.webfsd_start, h]

/-- Witness for `c8_start_while_running` on a concrete running state. -/
theorem c8_start_while_running_holds :
    WebfsdModule.webfsd_start WebfsdModule.argsA WebfsdModule.envOk
        (WebfsdModule.webfsd_start WebfsdModule.argsA WebfsdModule.envOk
            WebfsdModule.stateIdle).state =
      ⟨CallResult.error "Server is already running",
        (WebfsdModule.webfsd_start WebfsdModule.argsA WebfsdModule.envOk
            WebfsdModule.stateIdle).state, []⟩ :=
  c8_start_while_running WebfsdModule.argsA WebfsdModule.envOk
    (WebfsdModule.webfsd_start WebfsdModule.argsA WebfsdModule.envOk
        WebfsdModule.stateIdle).state rfl

/-- Claim C9: in the subprocess wrapper, a server started with
`foreground = false` whose initial process exits successfully is recorded
with the sentinel pid -1, and every subsequent `stop_server` call fails
with the daemon-mode error while the state stays marked as running and
unchanged. -/
theorem c9_daemon_unstoppable (env env2 : WebfsdSub.WrapEnv)
    (s : WebfsdSub.WrapState)
    (h1 : s.serverRunning = false) (h2 : env.portInUse = false)
    (h3 : 0 < env.forkResult) (h4 : env.waitpidMatches = true)
    (h5 : env.initExitCode = some 0) :
    (WebfsdSub.start false env s).1 = CallResult.ok ∧
    (WebfsdSub.start false env s).2 = ⟨true, -1⟩ ∧
    (WebfsdSub.stop env2 (WebfsdSub.start false env s).2).1 =
      CallResult.error "Cannot stop daemon mode server from Python" ∧
    (WebfsdSub.stop env2 (WebfsdSub.start false env s).2).2 =
      (WebfsdSub.start false env s).2 := by
  have hneg : ¬ env.forkResult < 0 := by omega
  simp [WebfsdSub.start, WebfsdSub.stop, h1, h2, h4, h5, hneg]

/-- Witness for `c9_daemon_unstoppable` at a concrete daemon-mode
start. -/
theorem c9_daemon_unstoppable_holds :
    (WebfsdSub.start false WebfsdSub.envW WebfsdSub.wIdle).1 =
      CallResult.ok ∧
    (WebfsdSub.start false WebfsdSub.envW WebfsdSub.wIdle).2 = ⟨true, -1⟩ ∧
    (WebfsdSub.stop WebfsdSub.envW
        (WebfsdSub.start false WebfsdSub.envW WebfsdSub.wIdle).2).1 =
      CallResult.error "Cannot stop daemon mode server from Python" ∧
    (WebfsdSub.stop WebfsdSub.envW
        (WebfsdSub.start false WebfsdSub.envW WebfsdSub.wIdle).2).2 =
      (WebfsdSub.start false WebfsdSub.envW WebfsdSub.wIdle).2 :=
  c9_daemon_unstoppable WebfsdSub.envW WebfsdSub.envW WebfsdSub.wIdle
    rfl rfl (by decide) rfl rfl

/-- Claim C10: in the subprocess wrapper, the invariant that
`server_running` is set only when `server_pid` is nonzero is preserved by
`start_server`, `stop_server` and `is_running`; `is_running` returns true
only when the recorded pid is the daemon sentinel or the recorded process
is still alive; and on discovering a dead process it clears both globals,
after which `is_running` returns false in every environment. -/
theorem c10_wrapper_invariant (fg : Bool) (env : WebfsdSub.WrapEnv)
    (s : WebfsdSub.WrapState)
    (hInv : WebfsdSub.Inv s) (hfork : env.forkResult ≠ 0) :
    WebfsdSub.Inv (WebfsdSub.start fg env s).2 ∧
    WebfsdSub.Inv (WebfsdSub.stop env s).2 ∧
    WebfsdSub.Inv (WebfsdSub.is_running env s).2 ∧
    ((WebfsdSub.is_running env s).1 = true →
      s.serverPid = -1 ∨ (0 < s.serverPid ∧ env.alive s.serverPid = true)) ∧
    (s.serverRunning = true → 0 < s.serverPid →
      env.alive s.serverPid = false →
      (WebfsdSub.is_running env s).2 = ⟨false, 0⟩ ∧
      ∀ env2 : WebfsdSub.WrapEnv,
        (WebfsdSub.is_running env2 (⟨false, 0⟩ : WebfsdSub.WrapState)).1 =
          false) := by
  refine ⟨?_, ?_, ?_, ?_, ?_⟩
  · unfold WebfsdSub.start
    split_ifs <;> intro hx <;>
      by_cases ha : env.alive env.forkResult = true <;>
      by_cases hw : env.waitpidMatches = true <;>
      by_cases hi : env.initExitCode = some 0 <;>
      simp_all
  · unfold WebfsdSub.stop
    split_ifs <;> intro hx <;> simp_all
  · unfold WebfsdSub.is_running
    split_ifs <;> intro hx <;> simp_all
  · unfold WebfsdSub.is_running
    split_ifs <;> intro hx <;> simp_all
  · intro hr hp hdead
    have hne : ¬ s.serverPid = -1 := by omega
    refine ⟨?_, ?_⟩
    · simp [WebfsdSub.is_running, hr, hp, hdead, hne]
    · intro env2
      simp [WebfsdSub.is_running]

/-- Witness for `c10_wrapper_invariant` at a concrete state and
environment in which the recorded foreground child has died. -/
theorem c10_wrapper_invariant_holds :
    WebfsdSub.Inv
      (WebfsdSub.start true WebfsdSub.envDead
        (⟨true, 1234⟩ : WebfsdSub.WrapState)).2 ∧
    WebfsdSub.Inv
      (WebfsdSub.stop WebfsdSub.envDead
        (⟨true, 1234⟩ : WebfsdSub.WrapState)).2 ∧
    WebfsdSub.Inv
      (WebfsdSub.is_running WebfsdSub.envDead
        (⟨true, 1234⟩ : WebfsdSub.WrapState)).2 ∧
    ((WebfsdSub.is_running WebfsdSub.envDead
        (⟨true, 1234⟩ : WebfsdSub.WrapState)).1 = true →
      (⟨true, 1234⟩ : WebfsdSub.WrapState).serverPid = -1 ∨
      (0 < (⟨true, 1234⟩ : WebfsdSub.WrapState).serverPid ∧
        WebfsdSub.envDead.alive
          (⟨true, 1234⟩ : WebfsdSub.WrapState).serverPid = true)) ∧
    ((⟨true, 1234⟩ : WebfsdSub.WrapState).serverRunning = true →
      0 < (⟨true, 1234⟩ : WebfsdSub.WrapState).serverPid →
      WebfsdSub.envDead.alive
        (⟨true, 1234⟩ : WebfsdSub.WrapState).serverPid = false →
      (WebfsdSub.is_running WebfsdSub.envDead
          (⟨true, 1234⟩ : WebfsdSub.WrapState)).2 = ⟨false, 0⟩ ∧
      ∀ env2 : WebfsdSub.WrapEnv,
        (WebfsdSub.is_running env2 (⟨false, 0⟩ : WebfsdSub.WrapState)).1 =
          false) :=
  c10_wrapper_invariant true WebfsdSub.envDead
    (⟨true, 1234⟩ : WebfsdSub.WrapState) (by decide) (by decide)

/-- Claim C3: every decoded request path whose `..` segments would escape
the document root is rejected with a 4xx-class error and is never resolved
to a filesystem path, regardless of the virtual-host configuration. -/
theorem c3_traversal_rejected (vh : ReqPath.VHostConfig)
    (root segs : List String)
    (h : ReqPath.escapesRoot segs = true) :
    (∃ c, ReqPath.resolve_path vh root segs = ReqPath.Resolution.rejected c ∧
      400 ≤ c ∧ c < 500) ∧
    ∀ fsPath, ReqPath.resolve_path vh root segs ≠
      ReqPath.Resolution.resolved fsPath := by
  refine ⟨⟨403, ?_, by omega, by omega⟩, ?_⟩ <;>
    simp [ReqPath.resolve_path, h]

/-- Witness for `c3_traversal_rejected` on the concrete escaping path
`../etc/passwd` with virtual hosting enabled. -/
theorem c3_traversal_rejected_holds :
    (∃ c, ReqPath.resolve_path ReqPath.vhW ["srv", "www"]
        ["..", "etc", "passwd"] = ReqPath.Resolution.rejected c ∧
      400 ≤ c ∧ c < 500) ∧
    ∀ fsPath, ReqPath.resolve_path ReqPath.vhW ["srv", "www"]
        ["..", "etc", "passwd"] ≠ ReqPath.Resolution.resolved fsPath :=
  c3_traversal_rejected ReqPath.vhW ["srv", "www"] ["..", "etc", "passwd"]
    (by decide)

/-- Claim C4: a cached directory listing is served only while it is valid
(younger than the TTL and with an unchanged directory mtime); on a valid
hit only the last-access time is updated, and whenever either condition
fails — the entry has outlived the TTL or the stored mtime differs from
the directory's current mtime — the listing is re-rendered and the entry
replaced before serving; in particular creating or deleting an entry with
a new directory mtime forces a re-render at any time, even before the TTL
expires. -/
theorem c4_cache_validity (ttl now tNew : Nat) (e : DirCache.CacheEntry)
    (d : DirCache.DirState) (f : DirCache.FileEntry) (nm : String) :
    (DirCache.cacheValid ttl now e d.mtime = true →
      DirCache.lookup_or_render ttl now (some e) d =
        (e.body, { e with lastAccess := now })) ∧
    (DirCache.cacheValid ttl now e d.mtime = false →
      DirCache.lookup_or_render ttl now (some e) d =
        (DirCache.render d, ⟨DirCache.render d, d.mtime, now, now⟩)) ∧
    (tNew ≠ e.storedMtime →
      (DirCache.lookup_or_render ttl now (some e)
          (DirCache.createEntry d f tNew)).1 =
        DirCache.render (DirCache.createEntry d f tNew)) ∧
    (tNew ≠ e.storedMtime →
      (DirCache.lookup_or_render ttl now (some e)
          (DirCache.deleteEntry d nm tNew)).1 =
        DirCache.render (DirCache.deleteEntry d nm tNew)) := by
  refine ⟨?_, ?_, ?_, ?_⟩ <;> intro h1
  · simp [DirCache.lookup_or_render, h1]
  · simp [DirCache.lookup_or_render, h1]
  · have hv : DirCache.cacheValid ttl now e
        (DirCache.createEntry d f tNew).mtime = false := by
      simp [DirCache.cacheValid, DirCache.createEntry]
      intro _
      exact fun hEq => h1 hEq.symm
    simp [DirCache.lookup_or_render, hv]
  · have hv : DirCache.cacheValid ttl now e
        (DirCache.deleteEntry d nm tNew).mtime = false := by
      simp [DirCache.cacheValid, DirCache.deleteEntry]
      intro _
      exact fun hEq => h1 hEq.symm
    simp [DirCache.lookup_or_render, hv]

/-- Witness for `c4_cache_validity`: creating `new.txt` in the concrete
directory bumps its mtime to 101 and forces a re-render before the TTL of
3600 expires. -/
theorem c4_cache_validity_holds :
    (DirCache.lookup_or_render 3600 100 (some DirCache.entryW)
        (DirCache.createEntry DirCache.dirW DirCache.fW 101)).1 =
      DirCache.render (DirCache.createEntry DirCache.dirW DirCache.fW 101) :=
  (c4_cache_validity 3600 100 101 DirCache.entryW DirCache.dirW
      DirCache.fW "b.txt").2.2.1 (by decide)

/-- Claim C5: modifying the contents of an existing file (changing its
size and timestamp) does not change the directory's own mtime, so a valid
cached listing stays valid and a listing request within the TTL returns
the identical cached body. -/
theorem c5_modify_keeps_cache (ttl now : Nat) (e : DirCache.CacheEntry)
    (d : DirCache.DirState) (nm : String) (sz mt : Nat)
    (hvalid : DirCache.cacheValid ttl now e d.mtime = true) :
    (DirCache.modifyFile d nm sz mt).mtime = d.mtime ∧
    DirCache.lookup_or_render ttl now (some e)
        (DirCache.modifyFile d nm sz mt) =
      (e.body, { e with lastAccess := now }) := by
  refine ⟨rfl, ?_⟩
  have hv : DirCache.cacheValid ttl now e
      (DirCache.modifyFile d nm sz mt).mtime = true := hvalid
  simp [DirCache.lookup_or_render, hv]

/-- Witness for `c5_modify_keeps_cache`: rewriting the contents of
`b.txt` leaves the cached listing of the concrete directory served
unchanged. -/
theorem c5_modify_keeps_cache_holds :
    (DirCache.modifyFile DirCache.dirW "b.txt" 99 999).mtime =
      DirCache.dirW.mtime ∧
    DirCache.lookup_or_render 3600 100 (some DirCache.entryW)
        (DirCache.modifyFile DirCache.dirW "b.txt" 99 999) =
      (DirCache.entryW.body,
        { DirCache.entryW with lastAccess := 100 }) :=
  c5_modify_keeps_cache 3600 100 DirCache.entryW DirCache.dirW
    "b.txt" 99 999 (by decide)

/-- Claim C7: a request resolving to a directory serves the configured
index file when it exists in that directory; otherwise it serves a
listing through the Directory Cache when listings are enabled, and a
4xx-class error response when listings are disabled. -/
theorem c7_directory_dispatch (cfg : DirCache.ListingConfig)
    (ttl now : Nat) (cache : Option DirCache.CacheEntry)
    (d : DirCache.DirState) :
    (DirCache.hasIndex cfg d = true →
      DirCache.serve_directory cfg ttl now cache d =
        DirCache.DirResponse.indexResp cfg.indexFile) ∧
    (DirCache.hasIndex cfg d = false → cfg.listingEnabled = true →
      DirCache.serve_directory cfg ttl now cache d =
        DirCache.DirResponse.listingResp
          (DirCache.lookup_or_render ttl now cache d).1) ∧
    (DirCache.hasIndex cfg d = false → cfg.listingEnabled = false →
      ∃ c, DirCache.serve_directory cfg ttl now cache d =
        DirCache.DirResponse.errorResp c ∧ 400 ≤ c ∧ c < 500) := by
  refine ⟨?_, ?_, ?_⟩
  · intro h1
    simp [DirCache.serve_directory, h1]
  · intro h1 h2
    simp [DirCache.serve_directory, h1, h2]
  · intro h1 h2
    exact ⟨404, by simp [DirCache.serve_directory, h1, h2], by omega, by omega⟩

/-- Witness for `c7_directory_dispatch`: the concrete directory holding
`index.html` serves the index file. -/
theorem c7_directory_dispatch_holds :
    DirCache.serve_directory DirCache.cfgIdx 3600 100 none DirCache.dirW =
      DirCache.DirResponse.indexResp DirCache.cfgIdx.indexFile :=
  (c7_directory_dispatch DirCache.cfgIdx 3600 100 none DirCache.dirW).1
    (by decide)
